import Mathlib

/-
Verification development for the synter billing flow.

The repository ships a billing UI widget (StripePayment.tsx), a Next.js proxy
config, a production startup script and a deployment runbook.  The credit
ledger, checkout session initiator and webhook reconciler described by the
specification are server-side components whose code is not among the shipped
files; they are modelled here from the specification's words (each such
definition is marked `Modelled from the spec:`).  The widget-side definitions
are embedded directly from StripePayment.tsx.
-/

namespace Synter

/-- Modelled from the spec: subscription tier enum of an Account (section 3);
the account store itself is server-side code not among the shipped files. -/
inductive SubTier
  | NONE
  | PRO
  | ENTERPRISE
deriving DecidableEq, Repr

/-- Modelled from the spec: subscription status enum of an Account (section 3). -/
inductive SubStatus
  | ACTIVE
  | PAST_DUE
  | CANCELED
deriving DecidableEq, Repr

/-- Modelled from the spec: an Account has a non-negative integer credit
balance, a subscription tier and a subscription status (section 3). -/
structure Account where
  balance : Nat
  tier : SubTier
  status : SubStatus
deriving DecidableEq, Repr

/-- Modelled from the spec: errors of the Credit Ledger (sections 4.3 and 7). -/
inductive LedgerError
  | InsufficientCredits
deriving DecidableEq, Repr

/-- Modelled from the spec: `grant(account, amount)` is unconditional and
always succeeds for a valid account (section 4.3); the ledger code is
server-side and not among the shipped files. -/
def grant (a : Account) (amount : Nat) : Account :=
  { a with balance := a.balance + amount }

/-- Modelled from the spec: `debit(account, amount)` fails with
`InsufficientCredits` if balance < amount, otherwise atomically decrements
and returns the new balance (section 4.3). -/
def debit (a : Account) (amount : Nat) : Except LedgerError (Account × Nat) :=
  if a.balance < amount then .error .InsufficientCredits
  else .ok ({ a with balance := a.balance - amount }, a.balance - amount)

abbrev AccountId := String

abbrev EventId := String

abbrev SessionHandle := String

/-- Credit-pack SKUs of the fixed catalog, from the deployment runbook
(SPRINT7_DEPLOYMENT_GUIDE.md, Stripe products section). -/
def creditPackSKUs : List String :=
  ["credits_10", "credits_25", "credits_50"]

/-- Subscription-tier products of the fixed catalog, from the deployment
runbook (SPRINT7_DEPLOYMENT_GUIDE.md, Stripe products section). -/
def tierSKUs : List String :=
  ["PRO", "ENTERPRISE"]

/-- Fixed product catalog: three credit-pack SKUs and two subscription tiers
(spec section 4.1 and the deployment runbook). -/
def catalog : List String := creditPackSKUs ++ tierSKUs

/-- Credit amount carried by each credit-pack SKU, from the deployment
runbook (credits_10 grants 10, credits_25 grants 25, credits_50 grants 50). -/
def creditsOf (product : String) : Nat :=
  if product = "credits_10" then 10
  else if product = "credits_25" then 25
  else if product = "credits_50" then 50
  else 0

/-- Modelled from the spec: Webhook Event types (section 3); an extra
constructor stands for the unknown event types that must be accepted and
ignored (section 4.2).  The reconciler code is server-side and not among the
shipped files. -/
inductive EventType
  | CHECKOUT_COMPLETED
  | SUBSCRIPTION_UPDATED
  | SUBSCRIPTION_DELETED
  | UNKNOWN
deriving DecidableEq, Repr

/-- Modelled from the spec: a Webhook Event carries a globally unique event
identifier, an event type and a payload; the payload names the checkout
session handle (for CHECKOUT_COMPLETED) or the target account and the new
subscription fields (for SUBSCRIPTION_UPDATED / SUBSCRIPTION_DELETED). -/
structure WebhookEvent where
  id : EventId
  type : EventType
  account : AccountId
  sessionHandle : SessionHandle
  newTier : SubTier
  newStatus : SubStatus
deriving DecidableEq, Repr

/-- Modelled from the spec: Checkout Session status enum (section 3). -/
inductive SessionStatus
  | PENDING
  | COMPLETED
  | EXPIRED
deriving DecidableEq, Repr

/-- Modelled from the spec: a Checkout Session record keyed by the opaque
provider handle, holding the purchasing account, the product and a status
(sections 3 and 4.1). -/
structure CheckoutSession where
  account : AccountId
  product : String
  status : SessionStatus
deriving DecidableEq, Repr

/-- Modelled from the spec: the server-side authoritative state — the
per-account Credit Ledger and subscription fields, the durable dedup records
of processed event identifiers, and the Checkout Session records. -/
structure SysState where
  accounts : AccountId → Option Account
  processed : List EventId
  sessions : SessionHandle → Option CheckoutSession

/-- Record an event identifier as durably processed. -/
def markProcessed (st : SysState) (eid : EventId) : SysState :=
  { st with processed := eid :: st.processed }

/-- Update the account stored under `aid`, leaving every other account
untouched; a missing account stays missing. -/
def setAccount (st : SysState) (aid : AccountId) (f : Account → Account) : SysState :=
  { st with accounts := fun k => if k = aid then (st.accounts k).map f else st.accounts k }

/-- Store a Checkout Session record under its opaque handle. -/
def setSession (st : SysState) (h : SessionHandle) (s : CheckoutSession) : SysState :=
  { st with sessions := fun k => if k = h then some s else st.sessions k }

/-- Modelled from the spec: the effect of a completed purchase — a credit
grant for a credit-pack product, a subscription activation for a tier
product (section 4.2, CHECKOUT_COMPLETED case). -/
def applyPurchase (a : Account) (product : String) : Account :=
  if product = "PRO" then { a with tier := .PRO, status := .ACTIVE }
  else if product = "ENTERPRISE" then { a with tier := .ENTERPRISE, status := .ACTIVE }
  else grant a (creditsOf product)

/-- Modelled from the spec: dispatch of an already-verified Webhook Event
(section 4.2).  An already-processed event identifier is a no-op; a
CHECKOUT_COMPLETED event resolves its session, treats an already-COMPLETED
session as a duplicate no-op, and otherwise marks the session COMPLETED,
applies the purchase to the account and durably records the event
identifier; subscription events update the account's subscription fields,
deletion resetting tier to NONE and status to CANCELED; unknown event types
are accepted and ignored. -/
def processEvent (st : SysState) (ev : WebhookEvent) : SysState :=
  if ev.id ∈ st.processed then st
  else
    match ev.type with
    | .CHECKOUT_COMPLETED =>
      match st.sessions ev.sessionHandle with
      | some s =>
        if s.status = .COMPLETED then st
        else
          markProcessed
            (setAccount (setSession st ev.sessionHandle { s with status := .COMPLETED })
              s.account (fun a => applyPurchase a s.product))
            ev.id
      | none => markProcessed st ev.id
    | .SUBSCRIPTION_UPDATED =>
      markProcessed
        (setAccount st ev.account (fun a => { a with tier := ev.newTier, status := ev.newStatus }))
        ev.id
    | .SUBSCRIPTION_DELETED =>
      markProcessed
        (setAccount st ev.account (fun a => { a with tier := .NONE, status := .CANCELED }))
        ev.id
    | .UNKNOWN => markProcessed st ev.id

/-- Modelled from the spec: the provider's signature over a payload under the
shared secret (the `verifySignature` capability of section 9; the signing
backend is not among the shipped files).  Any injective keyed tag serves the
model; the security property used is only that verification compares the
delivered signature against this tag. -/
def signOf (secret : String) (eid : EventId) : String :=
  secret ++ ":" ++ eid

/-- Modelled from the spec: a raw webhook delivery — the parsed event plus
the signature header it arrived with. -/
structure Delivery where
  event : WebhookEvent
  sig : String
deriving DecidableEq, Repr

/-- Modelled from the spec: signature verification against the shared secret
(section 4.2). -/
def verifySig (secret : String) (d : Delivery) : Bool :=
  d.sig == signOf secret d.event.id

/-- Modelled from the spec: errors of the Webhook Reconciler (section 7). -/
inductive WebhookError
  | InvalidSignature
deriving DecidableEq, Repr

/-- Modelled from the spec: the Webhook Reconciler — verifies the signature
against the shared secret, failing closed with `InvalidSignature` and no
processing at all; on a valid signature dispatches the event (section 4.2).
Returns the response paired with the resulting state. -/
def handleDelivery (secret : String) (st : SysState) (d : Delivery) :
    Except WebhookError Unit × SysState :=
  if verifySig secret d then (.ok (), processEvent st d.event)
  else (.error .InvalidSignature, st)

/-- Repeated delivery of the same raw webhook payload `n` times (at-least-once
delivery of the same logical event). -/
def deliverN (secret : String) (st : SysState) (d : Delivery) : Nat → SysState
  | 0 => st
  | n + 1 => deliverN secret (handleDelivery secret st d).2 d n

/-- Modelled from the spec: errors of the Checkout Session Initiator
(sections 4.1 and 7). -/
inductive InitError
  | InvalidProduct
  | UpstreamUnavailable
deriving DecidableEq, Repr

/-- Modelled from the spec: a Purchase Intent — requested product, target
account and client-supplied redirect targets (section 3). -/
structure PurchaseIntent where
  product : String
  account : AccountId
  successUrl : String
  cancelUrl : String
deriving DecidableEq, Repr

/-- Modelled from the spec: the external provider's answer to a
create-session call — an opaque session handle plus redirect URL, or a
transient failure (the `createSession` capability of section 9). -/
inductive ProviderResult
  | session (handle : SessionHandle) (url : String)
  | unavailable
deriving DecidableEq, Repr

/-- Modelled from the spec: the Checkout Session Initiator (section 4.1) —
validates the product against the fixed catalog, failing with
`InvalidProduct` before contacting the provider; otherwise calls the
provider (whose answer is passed in as `pr`), persists one Checkout Session
record keyed by the returned handle, and returns the redirect URL.  The
final Bool records whether the external provider was contacted. -/
def initiateCheckout (pr : ProviderResult) (st : SysState) (intent : PurchaseIntent) :
    (Except InitError String × SysState) × Bool :=
  if intent.product ∈ catalog then
    match pr with
    | .unavailable => ((.error .UpstreamUnavailable, st), true)
    | .session h url =>
      ((.ok url, setSession st h ⟨intent.account, intent.product, .PENDING⟩), true)
  else ((.error .InvalidProduct, st), false)

/-- Modelled from the spec: the request paths that touch server-side state —
a checkout initiation, a client arriving on the success/cancel redirect
page, or a raw webhook delivery (section 2 control flow). -/
inductive SysStep
  | initiate (intent : PurchaseIntent) (pr : ProviderResult)
  | redirectArrival (aid : AccountId) (success : Bool)
  | webhook (d : Delivery)

/-- Modelled from the spec: the server-side state transition of one request.
The client-facing success/cancel redirect is a UI concern only and performs
no state change (sections 2 and 9). -/
def sysStep (secret : String) (st : SysState) (s : SysStep) : SysState :=
  match s with
  | .initiate intent pr => (initiateCheckout pr st intent).1.2
  | .redirectArrival _ _ => st
  | .webhook d => (handleDelivery secret st d).2

/-- Run a sequence of requests against the server-side state. -/
def runTrace (secret : String) (st : SysState) (trace : List SysStep) : SysState :=
  trace.foldl (sysStep secret) st

/-- Whether a request is a webhook delivery whose signature verifies. -/
def isVerifiedWebhook (secret : String) : SysStep → Bool
  | .webhook d => verifySig secret d
  | _ => false

/-- Modelled from the spec: an atomic Credit Ledger mutation on one account
(section 4.3). -/
inductive LedgerOp
  | gr (amount : Nat)
  | db (amount : Nat)
deriving DecidableEq, Repr

/-- Apply one atomic ledger mutation with the ledger's own operations; a
failed debit leaves the account unchanged (section 4.3). -/
def applyLedgerOp (a : Account) : LedgerOp → Account
  | .gr n => grant a n
  | .db n =>
    match debit a n with
    | .ok (a2, _) => a2
    | .error _ => a

/-- Apply a serial schedule of atomic ledger mutations to one account. -/
def runLedgerOps (a : Account) (l : List LedgerOp) : Account :=
  l.foldl applyLedgerOp a

/-- Modelled from the spec: ledger mutations on one account are mutually
exclusive (section 5), so the only interleavings the system permits of a
concurrent grant(+10) and debit(-3) on that account are the two
serializations of the two atomic operations. -/
def permittedSchedules : List (List LedgerOp) :=
  [[.gr 10, .db 3], [.db 3, .gr 10]]

/-- Product identifier the billing widget submits, embedded from
StripePayment.tsx line 27: the string credits_ followed by
Math.ceil(amount / 100), the amount being in cents. -/
def productIdOf (amount : Nat) : String :=
  "credits_" ++ toString ((amount + 99) / 100)

/-- Checkout-session request body the billing widget submits, embedded from
StripePayment.tsx lines 25-31. -/
structure CheckoutRequest where
  reqType : String
  product_id : String
  workspace_id : String
  success_url : String
  cancel_url : String
deriving DecidableEq, Repr

/-- Request body built by the widget's submit handler, embedded from
StripePayment.tsx lines 25-31: the product identifier is computed from the
amount, the workspace identifier is the literal default-workspace, and the
redirect targets point at the billing page. -/
def buildCheckoutRequest (amount : Nat) (origin : String) : CheckoutRequest :=
  { reqType := "credit_pack"
    product_id := productIdOf amount
    workspace_id := "default-workspace"
    success_url := origin ++ "/settings/billing?success=true"
    cancel_url := origin ++ "/settings/billing?canceled=true" }

/-- Outcome of the widget's fetch of the checkout-session endpoint, embedded
from StripePayment.tsx lines 22-47: a 2xx JSON body with or without a
checkout_url, a non-2xx JSON body with or without an error detail, or a
thrown exception. -/
inductive FetchOutcome
  | okJson (checkoutUrl : Option String)
  | httpError (detail : Option String)
  | thrown
deriving DecidableEq, Repr

/-- Externally visible action of the widget's submit handler, embedded from
StripePayment.tsx lines 34-47. -/
inductive UiAction
  | navigate (url : String)
  | callOnSuccess
  | callOnError (msg : String)
deriving DecidableEq, Repr

/-- Run of the widget's submit handler, embedded from StripePayment.tsx
lines 16-51: the first component is the sequence of writes to the loading
flag — true at the start of the handler, false in the finally block on every
path — the second the UI action of the taken branch. -/
def handleSubmitRun (o : FetchOutcome) : List Bool × List UiAction :=
  let acts : List UiAction :=
    match o with
    | .okJson (some url) => [.navigate url]
    | .okJson none => [.callOnSuccess]
    | .httpError (some msg) => [.callOnError msg]
    | .httpError none => [.callOnError "Payment failed"]
    | .thrown => [.callOnError "Payment failed"]
  ([true] ++ [false], acts)

/-- Disabled condition of the widget's submit button, embedded from
StripePayment.tsx line 102: loading or an empty email or an empty
cardholder name. -/
def submitDisabled (loading : Bool) (email cardholderName : String) : Bool :=
  loading || email == "" || cardholderName == ""

/-- Example account with zero balance used to evaluate the model. -/
def accEx : Account := ⟨0, .NONE, .ACTIVE⟩

/-- Example account with balance 2, for the insufficient-credits scenario. -/
def accEx2 : Account := ⟨2, .NONE, .ACTIVE⟩

/-- Example account with balance 5, for the concurrent grant/debit scenario. -/
def accEx5 : Account := ⟨5, .NONE, .ACTIVE⟩

/-- Example account with balance 10, for the successful-debit scenario. -/
def accEx10 : Account := ⟨10, .NONE, .ACTIVE⟩

/-- Example account on the PRO tier, for the subscription-deletion scenario. -/
def accPro : Account := ⟨7, .PRO, .ACTIVE⟩

/-- Example pending checkout session for a credits_10 purchase. -/
def sessEx : CheckoutSession := ⟨"acct1", "credits_10", .PENDING⟩

/-- Example server-side state: one account, one pending session, no
processed events. -/
def stEx : SysState :=
  { accounts := fun k => if k = "acct1" then some accEx else none
    processed := []
    sessions := fun k => if k = "h1" then some sessEx else none }

/-- Example server-side state whose account is on the PRO tier. -/
def stPro : SysState :=
  { accounts := fun k => if k = "acct1" then some accPro else none
    processed := []
    sessions := fun _ => none }

/-- Example CHECKOUT_COMPLETED webhook event for the pending session. -/
def evEx : WebhookEvent := ⟨"evt1", .CHECKOUT_COMPLETED, "acct1", "h1", .NONE, .ACTIVE⟩

/-- Example delivery of `evEx` correctly signed under the secret sec. -/
def dEx : Delivery := ⟨evEx, signOf "sec" "evt1"⟩

/-- Example delivery of `evEx` with a wrong signature header. -/
def dBad : Delivery := ⟨evEx, "wrong"⟩

/-- Example SUBSCRIPTION_DELETED webhook event. -/
def evSub : WebhookEvent := ⟨"evt2", .SUBSCRIPTION_DELETED, "acct1", "h0", .PRO, .ACTIVE⟩

/-- Example delivery of `evSub` correctly signed under the secret sec. -/
def dSub : Delivery := ⟨evSub, signOf "sec" "evt2"⟩

/-- Example purchase intent naming a product outside the catalog. -/
def intentBad : PurchaseIntent := ⟨"credits_99", "acct1", "https://a/s", "https://a/c"⟩

/-- Example purchase intent naming a catalog product. -/
def intentOk : PurchaseIntent := ⟨"credits_10", "acct1", "https://a/s", "https://a/c"⟩

/-- Example request trace containing no verified webhook: a success-redirect
arrival, a checkout initiation and a badly signed webhook delivery. -/
def traceEx : List SysStep :=
  [.redirectArrival "acct1" true, .initiate intentOk .unavailable, .webhook dBad]

/-- Example serialization of the concurrent grant(+10) and debit(-3). -/
def schedEx : List LedgerOp := [.gr 10, .db 3]

/-- Replaying an already-processed event identifier changes nothing. -/
theorem processEvent_of_processed (st : SysState) (ev : WebhookEvent)
    (h : ev.id ∈ st.processed) : processEvent st ev = st := by
  simp [processEvent, h]

/-- When the delivered event identifier is already processed, any number of
further deliveries of the same payload leaves the state unchanged. -/
theorem deliverN_of_processed (secret : String) (st : SysState) (d : Delivery)
    (hsig : verifySig secret d = true) (h : d.event.id ∈ st.processed) (n : Nat) :
    deliverN secret st d n = st := by
  induction n with
  | zero => rfl
  | succ n ih =>
    have hstep : (handleDelivery secret st d).2 = st := by
      simp [handleDelivery, hsig, processEvent_of_processed st d.event h]
    show deliverN secret (handleDelivery secret st d).2 d n = st
    rw [hstep]
    exact ih

/-- On a credit-pack product, a completed purchase is exactly a credit grant
of the pack's credit amount. -/
theorem applyPurchase_creditPack (a : Account) (p : String) (hp : p ∈ creditPackSKUs) :
    applyPurchase a p = grant a (creditsOf p) := by
  simp [creditPackSKUs] at hp
  rcases hp with h | h | h <;> subst h <;> simp [applyPurchase]

/-- Checkout initiation never touches the Credit Ledger: the accounts map is
unchanged in every branch. -/
theorem initiateCheckout_accounts (pr : ProviderResult) (st : SysState)
    (intent : PurchaseIntent) :
    ((initiateCheckout pr st intent).1.2).accounts = st.accounts := by
  unfold initiateCheckout
  split
  · cases pr <;> simp [setSession]
  · rfl

/-- C3: debit fails with InsufficientCredits when the balance is below the
amount (and, the operation returning no account in that case, the balance is
unchanged); otherwise it atomically decrements the balance by the amount and
returns the new balance. -/
theorem debit_insufficient_or_decrements (a : Account) (amount : Nat) :
    (a.balance < amount → debit a amount = .error .InsufficientCredits) ∧
    (amount ≤ a.balance →
      debit a amount =
        .ok ({ a with balance := a.balance - amount }, a.balance - amount)) := by
  constructor
  · intro h
    simp [debit, h]
  · intro h
    simp [debit, Nat.not_lt.mpr h]

/-- Witness for C3: balance 2 cannot pay a 3-credit debit, balance 10 pays it
and drops to 7. -/
theorem debit_insufficient_or_decrements_witness :
    (accEx2.balance < 3 ∧ debit accEx2 3 = .error .InsufficientCredits) ∧
    (3 ≤ accEx10.balance ∧
      debit accEx10 3 =
        .ok ({ accEx10 with balance := accEx10.balance - 3 }, accEx10.balance - 3)) :=
  ⟨⟨by decide, (debit_insufficient_or_decrements accEx2 3).1 (by decide)⟩,
    ⟨by decide, (debit_insufficient_or_decrements accEx10 3).2 (by decide)⟩⟩

/-- C2: a delivery whose signature does not verify is rejected with
InvalidSignature and the whole server-side state — ledger, dedup records and
subscription fields — is returned unchanged. -/
theorem invalid_signature_no_processing (secret : String) (st : SysState) (d : Delivery)
    (h : verifySig secret d = false) :
    handleDelivery secret st d = (.error .InvalidSignature, st) := by
  simp [handleDelivery, h]

/-- Witness for C2 on a concretely mis-signed delivery. -/
theorem invalid_signature_no_processing_witness :
    verifySig "sec" dBad = false ∧
    handleDelivery "sec" stEx dBad = (.error .InvalidSignature, stEx) :=
  ⟨by decide, invalid_signature_no_processing "sec" stEx dBad (by decide)⟩

/-- C8: an intent whose product is outside the fixed catalog fails with
InvalidProduct, the provider is not contacted (final component false) and the
state — sessions and ledger alike — is unchanged. -/
theorem invalid_product_rejected (pr : ProviderResult) (st : SysState)
    (intent : PurchaseIntent) (h : intent.product ∉ catalog) :
    initiateCheckout pr st intent = ((.error .InvalidProduct, st), false) := by
  simp [initiateCheckout, h]

/-- Witness for C8 on the unknown product credits_99. -/
theorem invalid_product_rejected_witness :
    intentBad.product ∉ catalog ∧
    initiateCheckout .unavailable stEx intentBad = ((.error .InvalidProduct, stEx), false) :=
  ⟨by decide, invalid_product_rejected .unavailable stEx intentBad (by decide)⟩

/-- C6: the widget does not always submit a catalog SKU — at amount 2000
cents (the 20-dollar credits_25 pack of the runbook's catalog) it submits
credits_20, which is none of the three credit-pack SKUs. -/
theorem widget_product_id_off_catalog :
    productIdOf 2000 = "credits_20" ∧ "credits_20" ∉ creditPackSKUs := by
  constructor
  · rfl
  · decide

/-- C7: the workspace identifier in every checkout request the widget builds
is the hardcoded constant default-workspace, independent of any caller
account context. -/
theorem widget_workspace_id_hardcoded (amount : Nat) (origin : String) :
    (buildCheckoutRequest amount origin).workspace_id = "default-workspace" := rfl

/-- C10: on every fetch outcome the submit handler's first write to the
loading flag is true and its last write is false (the finally block runs on
success, error response and thrown exception alike), and whenever loading is
true the submit button is disabled, so at most one request is in flight and
the form never stays stuck loading. -/
theorem submit_loading_reset_and_disabled (o : FetchOutcome) (email name : String) :
    (handleSubmitRun o).1.head? = some true ∧
    (handleSubmitRun o).1.getLast? = some false ∧
    submitDisabled true email name = true := by
  refine ⟨rfl, rfl, ?_⟩
  simp [submitDisabled]

/-- C4: under the per-account mutual exclusion of section 5, both permitted
interleavings of a concurrent grant(+10) and debit(-3) on an account with
balance at least 3 converge to initial + 10 - 3; neither update is lost. -/
theorem concurrent_grant_debit_converges (a : Account) (l : List LedgerOp)
    (hb : 3 ≤ a.balance) (hl : l ∈ permittedSchedules) :
    (runLedgerOps a l).balance = a.balance + 10 - 3 := by
  simp [permittedSchedules] at hl
  rcases hl with h | h <;> subst h
  · show (applyLedgerOp (applyLedgerOp a (.gr 10)) (.db 3)).balance = a.balance + 10 - 3
    simp only [applyLedgerOp, grant, debit]
    rw [if_neg (by omega)]
  · show (applyLedgerOp (applyLedgerOp a (.db 3)) (.gr 10)).balance = a.balance + 10 - 3
    simp only [applyLedgerOp, debit]
    rw [if_neg (by omega)]
    simp only [grant]
    omega

/-- Witness for C4 at balance 5 with the grant-first serialization. -/
theorem concurrent_grant_debit_converges_witness :
    3 ≤ accEx5.balance ∧ schedEx ∈ permittedSchedules ∧
    (runLedgerOps accEx5 schedEx).balance = accEx5.balance + 10 - 3 :=
  ⟨by decide, by decide,
    concurrent_grant_debit_converges accEx5 schedEx (by decide) (by decide)⟩

/-- C9: a validly signed, not-yet-processed SUBSCRIPTION_DELETED event sets
the target account's tier to NONE and status to CANCELED, whatever the prior
tier and status were. -/
theorem subscription_deleted_resets (secret : String) (st : SysState) (d : Delivery)
    (a : Account) (hsig : verifySig secret d = true)
    (htype : d.event.type = .SUBSCRIPTION_DELETED)
    (hfresh : d.event.id ∉ st.processed)
    (hacct : st.accounts d.event.account = some a) :
    (handleDelivery secret st d).2.accounts d.event.account =
      some { a with tier := .NONE, status := .CANCELED } := by
  simp [handleDelivery, hsig, processEvent, hfresh, htype, markProcessed, setAccount, hacct]

/-- Witness for C9 on a PRO/ACTIVE account. -/
theorem subscription_deleted_resets_witness :
    verifySig "sec" dSub = true ∧
    dSub.event.type = .SUBSCRIPTION_DELETED ∧
    dSub.event.id ∉ stPro.processed ∧
    stPro.accounts dSub.event.account = some accPro ∧
    (handleDelivery "sec" stPro dSub).2.accounts dSub.event.account =
      some { accPro with tier := .NONE, status := .CANCELED } :=
  ⟨by decide, by decide, by decide, by decide,
    subscription_deleted_resets "sec" stPro dSub accPro (by decide) (by decide)
      (by decide) (by decide)⟩

/-- C1: delivering the same correctly signed CHECKOUT_COMPLETED payload any
number n ≥ 1 of times has exactly the effect of the first processing — the
session's credit grant is applied to the account exactly once — and every
further delivery is a no-op that still answers success. -/
theorem checkout_completed_exactly_once (secret : String) (st : SysState) (d : Delivery)
    (s : CheckoutSession) (a : Account)
    (hsig : verifySig secret d = true)
    (htype : d.event.type = .CHECKOUT_COMPLETED)
    (hfresh : d.event.id ∉ st.processed)
    (hsess : st.sessions d.event.sessionHandle = some s)
    (hstatus : s.status ≠ .COMPLETED)
    (hacct : st.accounts s.account = some a)
    (hpack : s.product ∈ creditPackSKUs)
    (n : Nat) (hn : 1 ≤ n) :
    deliverN secret st d n = processEvent st d.event ∧
    (processEvent st d.event).accounts s.account = some (grant a (creditsOf s.product)) ∧
    (handleDelivery secret (deliverN secret st d n) d).1 = .ok () := by
  have hst1 : processEvent st d.event =
      markProcessed
        (setAccount (setSession st d.event.sessionHandle { s with status := .COMPLETED })
          s.account (fun x => applyPurchase x s.product)) d.event.id := by
    simp [processEvent, hfresh, htype, hsess, hstatus]
  have hmem : d.event.id ∈ (processEvent st d.event).processed := by
    rw [hst1]
    exact List.mem_cons_self _ _
  obtain ⟨m, rfl⟩ : ∃ m, n = m + 1 := ⟨n - 1, by omega⟩
  have hdel : deliverN secret st d (m + 1) = processEvent st d.event := by
    show deliverN secret (handleDelivery secret st d).2 d m = processEvent st d.event
    have h2 : (handleDelivery secret st d).2 = processEvent st d.event := by
      simp [handleDelivery, hsig]
    rw [h2]
    exact deliverN_of_processed secret _ d hsig hmem m
  refine ⟨hdel, ?_, ?_⟩
  · rw [hst1]
    simp [markProcessed, setAccount, setSession, hacct,
      applyPurchase_creditPack a s.product hpack]
  · simp [handleDelivery, hsig]

/-- Witness for C1: three deliveries of the signed credits_10 completion
grant exactly one credit application on the zero-balance account. -/
theorem checkout_completed_exactly_once_witness :
    verifySig "sec" dEx = true ∧
    dEx.event.type = .CHECKOUT_COMPLETED ∧
    dEx.event.id ∉ stEx.processed ∧
    stEx.sessions dEx.event.sessionHandle = some sessEx ∧
    sessEx.status ≠ .COMPLETED ∧
    stEx.accounts sessEx.account = some accEx ∧
    sessEx.product ∈ creditPackSKUs ∧
    (deliverN "sec" stEx dEx 3 = processEvent stEx dEx.event ∧
      (processEvent stEx dEx.event).accounts sessEx.account =
        some (grant accEx (creditsOf sessEx.product)) ∧
      (handleDelivery "sec" (deliverN "sec" stEx dEx 3) dEx).1 = .ok ()) :=
  ⟨by decide, by decide, by decide, by decide, by decide, by decide, by decide,
    checkout_completed_exactly_once "sec" stEx dEx sessEx accEx (by decide) (by decide)
      (by decide) (by decide) (by decide) (by decide) (by decide) 3 (by decide)⟩

/-- C5: a run of requests containing no webhook delivery with a verifying
signature — success-redirect arrivals and checkout initiations included —
leaves every account of the Credit Ledger unchanged; only verified webhook
events drive ledger state. -/
theorem ledger_unchanged_without_verified_webhook (secret : String) (st : SysState)
    (trace : List SysStep) (h : ∀ s ∈ trace, isVerifiedWebhook secret s = false) :
    (runTrace secret st trace).accounts = st.accounts := by
  induction trace generalizing st with
  | nil => rfl
  | cons s rest ih =>
    have hs : isVerifiedWebhook secret s = false := h s (List.mem_cons_self _ _)
    have hrest : ∀ x ∈ rest, isVerifiedWebhook secret x = false :=
      fun x hx => h x (List.mem_cons_of_mem _ hx)
    have hstep : (sysStep secret st s).accounts = st.accounts := by
      cases s with
      | initiate intent pr => exact initiateCheckout_accounts pr st intent
      | redirectArrival aid b => rfl
      | webhook d =>
        have hv : verifySig secret d = false := by simpa [isVerifiedWebhook] using hs
        simp [sysStep, handleDelivery, hv]
    show (runTrace secret (sysStep secret st s) rest).accounts = st.accounts
    rw [ih (sysStep secret st s) hrest, hstep]

/-- Witness for C5 on a trace of a success redirect, an initiation and a
mis-signed webhook. -/
theorem ledger_unchanged_without_verified_webhook_witness :
    (∀ s ∈ traceEx, isVerifiedWebhook "sec" s = false) ∧
    (runTrace "sec" stEx traceEx).accounts = stEx.accounts :=
  ⟨by decide, ledger_unchanged_without_verified_webhook "sec" stEx traceEx (by decide)⟩

end Synter
